import Mathlib

/-!
Verification development for the Chamonix ski-pass automation service.

The definitions below are a shallow embedding of the repository's Python
sources: the webhook intake helpers of fastAPI.py (signature verification
and the status filter), the order orchestrator of process_runner.py
(site resolution and the end-to-end runner), and the two notification
senders (notifications.send_slack_alert, mail_sender.send_error_email).
Byte strings are modelled as lists of naturals below 256, Python dict
lookups as Option values, Python truthiness of strings explicitly, and
raising code as Except values (an error value is an exception that
escaped the modelled function).
-/

/-- Embeds Python str.lower (ASCII case folding, as used on the inputs
that occur in this service). -/
def pyLower (s : String) : String :=
  String.mk (s.data.map Char.toLower)

/-- Embeds Python str.strip: removes leading and trailing whitespace. -/
def pyStrip (s : String) : String :=
  String.mk (((s.data.dropWhile Char.isWhitespace).reverse.dropWhile Char.isWhitespace).reverse)

/-- Embeds the Python expression `a or d` for an optional string `a` and a
string default `d`: None and the empty string are falsy. -/
def pyOrD (a : Option String) (d : String) : String :=
  match a with
  | none => d
  | some s => if s = "" then d else s

/-- Embeds the Python expression `a or b` for two optional strings:
None and the empty string are falsy. -/
def pyOrO (a b : Option String) : Option String :=
  match a with
  | none => b
  | some s => if s = "" then b else some s

/-- Digit-list to number conversion used by the model of Python int(). -/
def digitsToNat (ds : List Char) : Option Nat :=
  if ds = [] then none
  else if ds.all Char.isDigit then
    some (ds.foldl (fun a c => a * 10 + (c.toNat - 48)) 0)
  else none

/-- Embeds Python int(s) on an optional string: None raises TypeError
(result none), a non-numeric string raises ValueError (result none);
otherwise the integer value (optional sign, surrounding whitespace allowed). -/
def pyInt? (s : Option String) : Option Int :=
  match s with
  | none => none
  | some t =>
    match (pyStrip t).data with
    | [] => none
    | c :: ds =>
      if c = '-' then (digitsToNat ds).map (fun n => -(n : Int))
      else if c = '+' then (digitsToNat ds).map (fun n => (n : Int))
      else (digitsToNat (c :: ds)).map (fun n => (n : Int))

/-- Embeds the status extraction of fastAPI.handle_webhook:
`(webhook.status or payload.get("status") or "").lower()`. -/
def statusValue (st : Option String) : String :=
  pyLower (pyOrD st "")

/-- Embeds the event filter of fastAPI.handle_webhook: the order is
processed iff the lower-cased status equals "processing". -/
def shouldProcess (st : Option String) : Bool :=
  statusValue st == "processing"

/-- The two bot classes the runner can resolve
(cbm_portal.CBMPortalBot and earlybird_portal.EARLYBIRDPortalBot). -/
inductive BotClass
  | cbm
  | earlybird
deriving DecidableEq, Repr

/-- Embeds process_runner._get_bot_class_for_site. The lazy imports are
modelled as succeeding, since both portal modules are present in the
repository; the function returns the resolved class (or none) together
with the error message (or none). -/
def _get_bot_class_for_site (site : Option String) : Option BotClass × Option String :=
  match site with
  | none => (none, some "no_site_specified")
  | some s =>
    if s = "" then (none, some "no_site_specified")
    else
      let key := pyLower (pyStrip s)
      if key = "cbm" then (some BotClass.cbm, none)
      else if key = "earlybird" ∨ key = "early-bird" ∨ key = "early_bird" then
        (some BotClass.earlybird, none)
      else (none, some ("unsupported_site:" ++ key))

/-- Reduce to a 32-bit word, as Python ints are masked in SHA-256. -/
def w32 (n : Nat) : Nat := n % 4294967296

/-- Rotate a 32-bit word right by n bits. -/
def rotr (n x : Nat) : Nat :=
  let y := w32 x
  w32 ((y >>> n) ||| (y <<< (32 - n)))

/-- The SHA-256 round constants, in decimal. -/
def sha256K : List Nat :=
  [1116352408, 1899447441, 3049323471, 3921009573, 961987163, 1508970993,
   2453635748, 2870763221, 3624381080, 310598401, 607225278, 1426881987,
   1925078388, 2162078206, 2614888103, 3248222580, 3835390401, 4022224774,
   264347078, 604807628, 770255983, 1249150122, 1555081692, 1996064986,
   2554220882, 2821834349, 2952996808, 3210313671, 3336571891, 3584528711,
   113926993, 338241895, 666307205, 773529912, 1294757372, 1396182291,
   1695183700, 1986661051, 2177026350, 2456956037, 2730485921, 2820302411,
   3259730800, 3345764771, 3516065817, 3600352804, 4094571909, 275423344,
   430227734, 506948616, 659060556, 883997877, 958139571, 1322822218,
   1537002063, 1747873779, 1955562222, 2024104815, 2227730452, 2361852424,
   2428436474, 2756734187, 3204031479, 3329325298]

/-- The eight SHA-256 working words. -/
structure Hash8 where
  a : Nat
  b : Nat
  c : Nat
  d : Nat
  e : Nat
  f : Nat
  g : Nat
  h : Nat

/-- The SHA-256 initial hash value, in decimal. -/
def initHash : Hash8 :=
  ⟨1779033703, 3144134277, 1013904242, 2773480762,
   1359893119, 2600822924, 528734635, 1541459225⟩

/-- One step of the SHA-256 message-schedule extension. -/
def stepW (ws : List Nat) : List Nat :=
  let n := ws.length
  let x15 := ws.getD (n - 15) 0
  let x2 := ws.getD (n - 2) 0
  let s0 := rotr 7 x15 ^^^ rotr 18 x15 ^^^ (x15 >>> 3)
  let s1 := rotr 17 x2 ^^^ rotr 19 x2 ^^^ (x2 >>> 10)
  ws ++ [w32 (ws.getD (n - 16) 0 + s0 + ws.getD (n - 7) 0 + s1)]

/-- Extend a 16-word SHA-256 block to the 64-word message schedule. -/
def extendTo64 (ws : List Nat) : List Nat :=
  (List.range 48).foldl (fun acc _ => stepW acc) ws

/-- One SHA-256 compression round. -/
def compressStep (st : Hash8) (kw : Nat × Nat) : Hash8 :=
  let s1 := rotr 6 st.e ^^^ rotr 11 st.e ^^^ rotr 25 st.e
  let ch := (st.e &&& st.f) ^^^ ((4294967295 ^^^ st.e) &&& st.g)
  let t1 := w32 (st.h + s1 + ch + kw.1 + kw.2)
  let s0 := rotr 2 st.a ^^^ rotr 13 st.a ^^^ rotr 22 st.a
  let maj := (st.a &&& st.b) ^^^ (st.a &&& st.c) ^^^ (st.b &&& st.c)
  let t2 := w32 (s0 + maj)
  ⟨w32 (t1 + t2), st.a, st.b, st.c, w32 (st.d + t1), st.e, st.f, st.g⟩

/-- SHA-256 compression of one 16-word block. -/
def compress (h0 : Hash8) (block : List Nat) : Hash8 :=
  let f := (sha256K.zip (extendTo64 block)).foldl compressStep h0
  ⟨w32 (h0.a + f.a), w32 (h0.b + f.b), w32 (h0.c + f.c), w32 (h0.d + f.d),
   w32 (h0.e + f.e), w32 (h0.f + f.f), w32 (h0.g + f.g), w32 (h0.h + f.h)⟩

/-- Big-endian 8-byte encoding of a natural number. -/
def be64 (n : Nat) : List Nat :=
  [n >>> 56 % 256, n >>> 48 % 256, n >>> 40 % 256, n >>> 32 % 256,
   n >>> 24 % 256, n >>> 16 % 256, n >>> 8 % 256, n % 256]

/-- Big-endian 4-byte encoding of a 32-bit word. -/
def be32 (n : Nat) : List Nat :=
  [n >>> 24 % 256, n >>> 16 % 256, n >>> 8 % 256, n % 256]

/-- SHA-256 padding: append 0x80, zeros, and the 64-bit bit length. -/
def padMsg (m : List Nat) : List Nat :=
  let L := m.length
  m ++ [0x80] ++ List.replicate ((64 - (L + 9) % 64) % 64) 0 ++ be64 (L * 8)

/-- Group a byte list into big-endian 32-bit words. -/
def toWords : List Nat → List Nat
  | b0 :: b1 :: b2 :: b3 :: rest =>
    (((b0 * 256 + b1) * 256 + b2) * 256 + b3) :: toWords rest
  | _ => []

/-- Group a word list into 16-word blocks. -/
def toBlocks : List Nat → List (List Nat)
  | w0 :: w1 :: w2 :: w3 :: w4 :: w5 :: w6 :: w7 ::
    w8 :: w9 :: w10 :: w11 :: w12 :: w13 :: w14 :: w15 :: rest =>
    [w0, w1, w2, w3, w4, w5, w6, w7, w8, w9, w10, w11, w12, w13, w14, w15] :: toBlocks rest
  | _ => []

/-- SHA-256 of a byte list, as a 32-byte list. -/
def sha256 (m : List Nat) : List Nat :=
  let fin := (toBlocks (toWords (padMsg m))).foldl compress initHash
  be32 fin.a ++ be32 fin.b ++ be32 fin.c ++ be32 fin.d ++
  be32 fin.e ++ be32 fin.f ++ be32 fin.g ++ be32 fin.h

/-- HMAC-SHA256 with the 64-byte block size, as in Python hmac.new(key, msg, sha256). -/
def hmacSHA256 (key msg : List Nat) : List Nat :=
  let k0 :=
    if key.length > 64 then sha256 key ++ List.replicate 32 0
    else key ++ List.replicate (64 - key.length) 0
  sha256 ((k0.map (fun b => b ^^^ 0x5c)) ++ sha256 ((k0.map (fun b => b ^^^ 0x36)) ++ msg))

/-- The base64 alphabet. -/
def b64char (n : Nat) : Char :=
  "ABCDEFGHIJKLMNOPQRSTUVWXYZabcdefghijklmnopqrstuvwxyz0123456789+/".data.getD n '='

/-- Standard base64 encoding of a byte list. -/
def b64encode : List Nat → List Char
  | a :: b :: c :: rest =>
    let n := (a * 256 + b) * 256 + c
    b64char (n >>> 18 % 64) :: b64char (n >>> 12 % 64) ::
    b64char (n >>> 6 % 64) :: b64char (n % 64) :: b64encode rest
  | [a, b] =>
    let n := (a * 256 + b) * 256
    [b64char (n >>> 18 % 64), b64char (n >>> 12 % 64), b64char (n >>> 6 % 64), '=']
  | [a] =>
    let n := a * 65536
    [b64char (n >>> 18 % 64), b64char (n >>> 12 % 64), '=', '=']
  | [] => []

/-- The expected signature computed by fastAPI.verify_signature_base64:
base64 of the HMAC-SHA256 of the body under the secret. -/
def signB64 (secret body : List Nat) : String :=
  String.mk (b64encode (hmacSHA256 secret body))

/-- Embeds fastAPI.verify_signature_base64. The shared secret (a module
global read from the environment) is a parameter, in bytes; the whole body
runs inside a try/except, modelled by the internalError flag: when some
internal operation raises, the except branch returns false. An empty
(falsy) secret skips verification and returns true. hmac.compare_digest
on equal-typed strings is string equality. -/
def verify_signature_base64 (secret body : List Nat) (signature : String)
    (internalError : Bool) : Bool :=
  if secret = [] then true
  else if internalError then false
  else signB64 secret body == signature

/-- Embeds the Python expression `a or d` for an optional byte string `a`
and a byte-string default `d`: None and the empty string are falsy. -/
def pyOrB (a : Option (List Nat)) (d : List Nat) : List Nat :=
  match a with
  | none => d
  | some s => if s = [] then d else s

/-- The hardcoded fallback secret of fastAPI.py, the ASCII bytes of
CspaAOH15wwWrai. -/
def defaultSecret : List Nat :=
  [67, 115, 112, 97, 65, 79, 72, 49, 53, 119, 119, 87, 114, 97, 105]

/-- Embeds the module-level secret resolution of fastAPI.py:
SHARED_SECRET is the WEBHOOK_SECRET environment value, or else the
SHARED_SECRET environment value, or else the hardcoded default; None and
the empty string are falsy. -/
def sharedSecret (webhookSecretEnv sharedSecretEnv : Option (List Nat)) : List Nat :=
  pyOrB webhookSecretEnv (pyOrB sharedSecretEnv defaultSecret)

/-- Environment seen by mail_sender.send_error_email: the raw SMTP_PORT
environment value and whether the SMTP session inside the try block
raises. -/
structure MailEnv where
  smtpPort : Option String
  smtpSendRaises : Bool
deriving DecidableEq

/-- The SMTP connect/login/send sequence inside the try block of
mail_sender.send_error_email. -/
def smtpSend (env : MailEnv) : Except String Unit :=
  if env.smtpSendRaises then Except.error "SMTPException" else Except.ok ()

/-- Embeds mail_sender.send_error_email. Reading and int-converting
SMTP_PORT happens before the try block, so a missing or non-numeric
SMTP_PORT raises to the caller; message construction never raises; the
SMTP send is wrapped in try/except which only prints on failure. -/
def send_error_email (env : MailEnv) (_errorMessage _stackTrace : String) :
    Except String Unit :=
  match pyInt? env.smtpPort with
  | none => Except.error "int conversion of SMTP_PORT raised"
  | some _ =>
    match smtpSend env with
    | Except.ok _ => Except.ok ()
    | Except.error _ => Except.ok ()

/-- Environment seen by notifications.send_slack_alert: the resolved
webhook URL (parameter or SLACK_WEBHOOK_URL) and the outcome of
requests.post, either a status code or a raised exception. -/
structure SlackEnv where
  webhookUrl : Option String
  postOutcome : Except String Nat

/-- The body of notifications.send_slack_alert before its except clause:
unconfigured (falsy) URL returns False with a warning; otherwise the post
is attempted and True is returned exactly on status code 200. -/
def slackBody (env : SlackEnv) : Except String Bool :=
  match pyOrO env.webhookUrl none with
  | none => Except.ok false
  | some _ =>
    match env.postOutcome with
    | Except.error e => Except.error e
    | Except.ok code => Except.ok (code == 200)

/-- Embeds notifications.send_slack_alert: the whole body runs inside
try/except Exception, which logs and returns False. -/
def send_slack_alert (env : SlackEnv) (_message : String) : Except String Bool :=
  match slackBody env with
  | Except.ok b => Except.ok b
  | Except.error _ => Except.ok false

/-- The order payload fields read by the runner and the background worker. -/
structure OrderData where
  order_id : Option String
  id : Option String
  site : Option String

/-- The value returned by a bot's process_order, as inspected by
process_order_runner: a dict with success / voucher_path / error entries,
a plain string, or some other type. -/
inductive PyResult
  | pdict (success : Bool) (voucherPath : Option String) (error : Option String)
  | pstr (s : String)
  | pother
deriving DecidableEq

/-- Observable behavior of one bot instance (CBMPortalBot or
EARLYBIRDPortalBot) as consumed by process_order_runner: whether the
constructor raises, and the outcome of initialize_driver, login and
process_order (an error value is a raised exception). The cleanup methods
of both portal classes swallow their own exceptions, so cleanup is
modelled as non-raising. -/
structure BotBehavior where
  ctorRaises : Bool
  init : Except String Bool
  login : Except String Bool
  exec : Except String PyResult

/-- Interpretation of a process_order result by process_order_runner:
a dict with truthy success and truthy voucher_path yields that path;
truthy success without a voucher yields None; a failure dict yields None;
a plain string is returned directly; any other type yields None. -/
def interpResult : PyResult → Option String
  | PyResult.pdict success voucherPath _ =>
    if success then
      match voucherPath with
      | some p => if p = "" then none else some p
      | none => none
    else none
  | PyResult.pstr s => some s
  | PyResult.pother => none

/-- Observable trace of one process_order_runner call: the returned value
(or the exception that escaped), how often initialize_driver was invoked,
how often cleanup was invoked, and how often send_error_email was called. -/
structure RunnerTrace where
  result : Except String (Option String)
  initCalls : Nat
  cleanupCalls : Nat
  emailCalls : Nat

/-- The except-Exception branch of process_order_runner: it calls
send_error_email (whose own exception, if any, escapes past the return)
and otherwise returns None; the finally block has already been accounted
for in the cleanups argument. -/
def exceptPath (env : MailEnv) (inits cleanups : Nat) : RunnerTrace :=
  match send_error_email env "unexpected error occurred" "stack trace" with
  | Except.ok _ => RunnerTrace.mk (Except.ok none) inits cleanups 1
  | Except.error e => RunnerTrace.mk (Except.error e) inits cleanups 1

/-- The try/except/finally body of process_order_runner for one resolved
and instantiated bot: constructor, initialize_driver, login,
process_order, with cleanup in the finally block whenever the instance
was constructed. -/
def runBot (env : MailEnv) (b : BotBehavior) : RunnerTrace :=
  match b.ctorRaises with
  | true => exceptPath env 0 0
  | false =>
    match b.init with
    | Except.error _ => exceptPath env 1 1
    | Except.ok false => RunnerTrace.mk (Except.ok none) 1 1 0
    | Except.ok true =>
      match b.login with
      | Except.error _ => exceptPath env 1 1
      | Except.ok false => RunnerTrace.mk (Except.ok none) 1 1 0
      | Except.ok true =>
        match b.exec with
        | Except.error _ => exceptPath env 1 1
        | Except.ok r => RunnerTrace.mk (Except.ok (interpResult r)) 1 1 0

/-- Embeds process_runner.process_order_runner: the site defaults to cbm,
the bot class is resolved, and on resolution failure the runner logs and
returns None without constructing a bot; otherwise the resolved class is
instantiated and driven through the runBot stages. -/
def process_order_runner (env : MailEnv) (bots : BotClass → BotBehavior)
    (order : OrderData) : RunnerTrace :=
  match (_get_bot_class_for_site (some (pyOrD order.site "cbm"))).1 with
  | none => RunnerTrace.mk (Except.ok none) 0 0 0
  | some c => runBot env (bots c)

/-- The value run_automation hands back to the background worker: the
runner result (a string or None), or the synthesized failure dict when
the runner raised. -/
inductive AutoVal
  | vdict (success : Bool) (error : Option String)
  | vstr (s : String)
  | vnone
deriving DecidableEq

/-- True exactly on the dict variant. -/
def isDictVal : AutoVal → Bool
  | AutoVal.vdict _ _ => true
  | _ => false

/-- Embeds fastAPI.run_automation: calls process_order_runner and returns
its value unchanged; if the runner raised, the exception is caught and a
dict with success False and error automation_exception is returned. -/
def run_automation (env : MailEnv) (bots : BotClass → BotBehavior)
    (order : OrderData) : AutoVal × RunnerTrace :=
  let t := process_order_runner env bots order
  match t.result with
  | Except.ok (some s) => (AutoVal.vstr s, t)
  | Except.ok none => (AutoVal.vnone, t)
  | Except.error _ => (AutoVal.vdict false (some "automation_exception"), t)

/-- The Slack messages the background worker can emit: the per-failure
alert naming the order id and the failure reason, and the generic
critical-error alert naming only the order id. -/
inductive SlackMsg
  | orderFailed (orderId : Option String) (reason : Option String)
  | criticalError (orderId : Option String)
deriving DecidableEq

/-- Observable trace of one background-worker run: the runner trace, the
per-failure Slack alert if sent, the critical-error Slack alert if sent,
and whether an AttributeError was raised by calling .get on the runner
value. -/
structure BgTrace where
  runnerTrace : RunnerTrace
  perReasonAlert : Option SlackMsg
  criticalAlert : Option SlackMsg
  attrErrorRaised : Bool

/-- Embeds fastAPI._process_order_background: run_automation is called,
then result.get is invoked on its value. On a dict, a falsy success field
triggers the per-failure Slack alert with the error (or message) entry as
reason. On a string or None value, .get raises AttributeError, the outer
except branch catches it and sends the generic critical-error alert. The
Slack sends themselves sit in try/except and never propagate. -/
def _process_order_background (env : MailEnv) (bots : BotClass → BotBehavior)
    (order : OrderData) : BgTrace :=
  let p := run_automation env bots order
  match p.1 with
  | AutoVal.vdict success err =>
    match success with
    | true => BgTrace.mk p.2 none none false
    | false =>
      BgTrace.mk p.2 (some (SlackMsg.orderFailed order.order_id (pyOrO err none))) none false
  | AutoVal.vstr _ =>
    BgTrace.mk p.2 none (some (SlackMsg.criticalError order.order_id)) true
  | AutoVal.vnone =>
    BgTrace.mk p.2 none (some (SlackMsg.criticalError order.order_id)) true

/-- True on a normally returned runner value, false when an exception
escaped the runner. -/
def resultOk : Except String (Option String) → Bool
  | Except.ok _ => true
  | Except.error _ => false

/-- A mail environment with a well-formed SMTP_PORT. -/
def env0 : MailEnv := MailEnv.mk (some "587") false

/-- A mail environment with SMTP_PORT unset. -/
def envNoPort : MailEnv := MailEnv.mk none false

/-- A concrete order payload with order_id o1 and no site key. -/
def order0 : OrderData := OrderData.mk (some "o1") none none

/-- Bots whose initialize_driver always returns False. -/
def failInitBots : BotClass → BotBehavior :=
  fun _ => BotBehavior.mk false (Except.ok false) (Except.ok true) (Except.ok PyResult.pother)

/-- Bots whose process_order raises. -/
def raiseExecBots : BotClass → BotBehavior :=
  fun _ => BotBehavior.mk false (Except.ok true) (Except.ok true) (Except.error "boom")

/-- Bots whose process_order reports success without a voucher path. -/
def successNoVoucherBots : BotClass → BotBehavior :=
  fun _ => BotBehavior.mk false (Except.ok true) (Except.ok true)
    (Except.ok (PyResult.pdict true none none))

/-- Bots whose process_order reports a domain failure. -/
def failDictBots : BotClass → BotBehavior :=
  fun _ => BotBehavior.mk false (Except.ok true) (Except.ok true)
    (Except.ok (PyResult.pdict false none (some "portal_error")))

/-- Bots whose process_order returns a successful dict with a voucher path. -/
def voucherBots : BotClass → BotBehavior :=
  fun _ => BotBehavior.mk false (Except.ok true) (Except.ok true)
    (Except.ok (PyResult.pdict true (some "/vouchers/order_o1.pdf") none))

/-- Bots whose process_order returns a plain path string. -/
def voucherStrBots : BotClass → BotBehavior :=
  fun _ => BotBehavior.mk false (Except.ok true) (Except.ok true)
    (Except.ok (PyResult.pstr "/vouchers/order_o1.pdf"))

/-- When site resolution yields a class, the runner runs exactly that bot. -/
theorem runner_resolved (env : MailEnv) (bots : BotClass → BotBehavior)
    (order : OrderData) (c : BotClass)
    (hres : (_get_bot_class_for_site (some (pyOrD order.site "cbm"))).1 = some c) :
    process_order_runner env bots order = runBot env (bots c) := by
  unfold process_order_runner
  rw [hres]

/-- The except branch leaves the cleanup count it was given. -/
theorem exceptPath_cleanupCalls (env : MailEnv) (i k : Nat) :
    (exceptPath env i k).cleanupCalls = k := by
  unfold exceptPath
  cases send_error_email env "unexpected error occurred" "stack trace" <;> rfl

/-- The except branch leaves the init count it was given. -/
theorem exceptPath_initCalls (env : MailEnv) (i k : Nat) :
    (exceptPath env i k).initCalls = i := by
  unfold exceptPath
  cases send_error_email env "unexpected error occurred" "stack trace" <;> rfl

/-- The except branch always records exactly one error email call. -/
theorem exceptPath_emailCalls (env : MailEnv) (i k : Nat) :
    (exceptPath env i k).emailCalls = 1 := by
  unfold exceptPath
  cases send_error_email env "unexpected error occurred" "stack trace" <;> rfl

/-- With a parseable SMTP_PORT the except branch converts the exception
to a normal None return. -/
theorem exceptPath_ok (env : MailEnv) (i k : Nat)
    (h : (pyInt? env.smtpPort).isSome = true) :
    (exceptPath env i k).result = Except.ok none := by
  unfold exceptPath send_error_email
  obtain ⟨v, hv⟩ := Option.isSome_iff_exists.mp h
  rw [hv]
  cases smtpSend env <;> rfl

/-- A Python or-chain with a non-empty default never yields the empty
byte string. -/
theorem pyOrB_ne_nil (a : Option (List Nat)) (d : List Nat) (hd : d ≠ []) :
    pyOrB a d ≠ [] := by
  unfold pyOrB
  cases a with
  | none => exact hd
  | some s =>
    by_cases h : s = []
    · simp [h, hd]
    · simp [h]

/-- The resolved shared secret is non-empty under every environment
configuration, because the hardcoded fallback is non-empty. -/
theorem sharedSecret_ne_nil (wenv senv : Option (List Nat)) :
    sharedSecret wenv senv ≠ [] :=
  pyOrB_ne_nil wenv _ (pyOrB_ne_nil senv defaultSecret (by decide))

/-- Claim C1, counterexample. The claim asserts a retry policy with
max_attempts 2 and a 3-unit delay: with a bot whose initialize_driver
always returns False the final result should be a tagged failure with
attempts_used 2 and cleanup invoked once per attempt (twice in total).
The code makes exactly one attempt: initialize_driver is invoked once,
cleanup once, and the runner returns plain None with no error kind. -/
theorem C1_counterexample :
    (process_order_runner env0 failInitBots order0).initCalls = 1 ∧
    (process_order_runner env0 failInitBots order0).cleanupCalls = 1 ∧
    ¬((process_order_runner env0 failInitBots order0).initCalls = 2 ∧
      (process_order_runner env0 failInitBots order0).cleanupCalls = 2) ∧
    (process_order_runner env0 failInitBots order0).result = Except.ok none :=
  ⟨rfl, rfl, by decide, rfl⟩

/-- Claim C1, amended: process_order_runner makes exactly one attempt per
order with no retry and no inter-attempt delay; when the resolved bot's
initialize_driver returns False, initialize_driver is invoked once,
cleanup is invoked once, no error email is sent, and the runner returns
None without any error kind or attempt count. -/
theorem C1_single_attempt (env : MailEnv) (bots : BotClass → BotBehavior)
    (order : OrderData) (c : BotClass)
    (hres : (_get_bot_class_for_site (some (pyOrD order.site "cbm"))).1 = some c)
    (hctor : (bots c).ctorRaises = false)
    (hinit : (bots c).init = Except.ok false) :
    (process_order_runner env bots order).initCalls = 1 ∧
    (process_order_runner env bots order).cleanupCalls = 1 ∧
    (process_order_runner env bots order).emailCalls = 0 ∧
    (process_order_runner env bots order).result = Except.ok none := by
  rw [runner_resolved env bots order c hres]
  unfold runBot
  rw [hctor, hinit]
  exact ⟨rfl, rfl, rfl, rfl⟩

/-- Witness for C1_single_attempt at the always-failing bot. -/
theorem C1_single_attempt_witness :
    (_get_bot_class_for_site (some (pyOrD order0.site "cbm"))).1 = some BotClass.cbm ∧
    (failInitBots BotClass.cbm).ctorRaises = false ∧
    (failInitBots BotClass.cbm).init = Except.ok false ∧
    ((process_order_runner env0 failInitBots order0).initCalls = 1 ∧
     (process_order_runner env0 failInitBots order0).cleanupCalls = 1 ∧
     (process_order_runner env0 failInitBots order0).emailCalls = 0 ∧
     (process_order_runner env0 failInitBots order0).result = Except.ok none) :=
  ⟨by decide, rfl, rfl,
   C1_single_attempt env0 failInitBots order0 BotClass.cbm (by decide) rfl rfl⟩

/-- Claim C2, counterexample. The claim asserts that an exception raised
by the task is always converted into a failure outcome and never
propagated to the orchestrator's caller. With SMTP_PORT unset, the
except branch's own send_error_email call raises (int of None) before the
return, so an exception escapes process_order_runner; the finally block
still invoked cleanup exactly once. -/
theorem C2_counterexample :
    resultOk (process_order_runner envNoPort raiseExecBots order0).result = false ∧
    (process_order_runner envNoPort raiseExecBots order0).cleanupCalls = 1 :=
  ⟨rfl, rfl⟩

/-- Claim C2, amended: for every constructed task instance, cleanup is
invoked exactly once on every exit path out of the
initialize/login/execute stages; and when process_order raises, the
exception is converted into a plain None return and counted in one error
email, provided the except branch's own send_error_email call does not
itself raise (SMTP_PORT parses as an integer). -/
theorem C2_cleanup_once (env : MailEnv) (bots : BotClass → BotBehavior)
    (order : OrderData) (c : BotClass)
    (hres : (_get_bot_class_for_site (some (pyOrD order.site "cbm"))).1 = some c)
    (hctor : (bots c).ctorRaises = false) :
    (process_order_runner env bots order).cleanupCalls = 1 ∧
    (∀ m, (bots c).init = Except.ok true → (bots c).login = Except.ok true →
      (bots c).exec = Except.error m → (pyInt? env.smtpPort).isSome = true →
      (process_order_runner env bots order).result = Except.ok none ∧
      (process_order_runner env bots order).emailCalls = 1) := by
  rw [runner_resolved env bots order c hres]
  constructor
  · unfold runBot
    rw [hctor]
    cases hi : (bots c).init with
    | error e => exact exceptPath_cleanupCalls env 1 1
    | ok b =>
      cases b with
      | false => rfl
      | true =>
        cases hl : (bots c).login with
        | error e => exact exceptPath_cleanupCalls env 1 1
        | ok b2 =>
          cases b2 with
          | false => rfl
          | true =>
            cases he : (bots c).exec with
            | error m => exact exceptPath_cleanupCalls env 1 1
            | ok r => rfl
  · intro m h1 h2 h3 hport
    unfold runBot
    rw [hctor, h1, h2, h3]
    exact ⟨exceptPath_ok env 1 1 hport, exceptPath_emailCalls env 1 1⟩

/-- Witness for C2_cleanup_once at a bot raising in process_order, with a
configured SMTP_PORT. -/
theorem C2_cleanup_once_witness :
    (process_order_runner env0 raiseExecBots order0).cleanupCalls = 1 ∧
    (process_order_runner env0 raiseExecBots order0).result = Except.ok none ∧
    (process_order_runner env0 raiseExecBots order0).emailCalls = 1 :=
  ⟨(C2_cleanup_once env0 raiseExecBots order0 BotClass.cbm (by decide) rfl).1,
   ((C2_cleanup_once env0 raiseExecBots order0 BotClass.cbm (by decide) rfl).2
      "boom" rfl rfl rfl (by decide)).1,
   ((C2_cleanup_once env0 raiseExecBots order0 BotClass.cbm (by decide) rfl).2
      "boom" rfl rfl rfl (by decide)).2⟩

/-- Claim C3: for every body and non-empty secret, verifying the
signature obtained by base64-encoding the HMAC-SHA256 of the body under
the secret succeeds, and verifying any other signature string fails
(normal execution, no internal error). -/
theorem C3_signature_roundtrip (secret body : List Nat) (sig : String)
    (hsecret : secret ≠ []) (hsig : sig ≠ signB64 secret body) :
    verify_signature_base64 secret body (signB64 secret body) false = true ∧
    verify_signature_base64 secret body sig false = false := by
  constructor
  · simp [verify_signature_base64, hsecret]
  · simp only [verify_signature_base64, if_neg hsecret, Bool.false_eq_true, if_false,
      beq_eq_false_iff_ne, ne_eq]
    exact fun h => hsig h.symm

set_option maxRecDepth 1000000 in
/-- Witness for C3_signature_roundtrip at a one-byte secret and a
two-byte body. -/
theorem C3_signature_roundtrip_witness :
    ([107] : List Nat) ≠ [] ∧ "x" ≠ signB64 [107] [104, 105] ∧
    (verify_signature_base64 [107] [104, 105] (signB64 [107] [104, 105]) false = true ∧
     verify_signature_base64 [107] [104, 105] "x" false = false) :=
  have hx : "x" ≠ signB64 [107] [104, 105] := by decide
  ⟨by decide, hx, C3_signature_roundtrip [107] [104, 105] "x" (by decide) hx⟩

set_option maxRecDepth 1000000 in
/-- Claim C4, counterexample. The claim asserts a permissive bypass: with
the secret empty or unconfigured the verifier returns true for every body
and signature. But the module-level secret resolution falls back to a
hardcoded non-empty default, so even with both environment variables
unset the resolved secret is non-empty and a wrong signature is rejected
with false, not accepted with true. -/
theorem C4_counterexample :
    sharedSecret none none ≠ [] ∧
    verify_signature_base64 (sharedSecret none none) [104, 105] "x" false = false :=
  ⟨by decide, by decide⟩

/-- Claim C4, amended: the verifier is a total boolean function (no
exception escapes) and an internal computation error makes it return
false rather than raise; however the resolved secret is non-empty under
every environment configuration because of the hardcoded fallback, so the
empty-secret bypass branch is dead code and verification always reduces
to comparing the computed signature against the supplied one. -/
theorem C4_fail_closed_no_bypass (wenv senv : Option (List Nat))
    (body : List Nat) (sig : String) :
    sharedSecret wenv senv ≠ [] ∧
    verify_signature_base64 (sharedSecret wenv senv) body sig true = false ∧
    verify_signature_base64 (sharedSecret wenv senv) body sig false =
      (signB64 (sharedSecret wenv senv) body == sig) := by
  have hne : sharedSecret wenv senv ≠ [] := sharedSecret_ne_nil wenv senv
  refine ⟨hne, ?_, ?_⟩
  · simp [verify_signature_base64, hne]
  · simp [verify_signature_base64, hne]

/-- Claim C5: the webhook filter processes an event iff its status,
lower-cased, is exactly "processing"; a missing or empty status is
excluded like any other non-matching status, without error. -/
theorem C5_filter_iff (st : Option String) :
    shouldProcess st = true ↔ Option.map pyLower st = some "processing" := by
  cases st with
  | none => decide
  | some s =>
    by_cases h : s = ""
    · subst h
      decide
    · simp [shouldProcess, statusValue, pyOrD, h]

/-- Claim C6: site resolution trims and lower-cases the key, maps the
three earlybird aliases to one class, serves cbm for the runner's
defaulted absent key, and returns a tagged unsupported-site error naming
an unknown key; the resolver is a total function and never raises. -/
theorem C6_site_resolution :
    _get_bot_class_for_site (some "cbm") = (some BotClass.cbm, none) ∧
    _get_bot_class_for_site (some "CBM ") = (some BotClass.cbm, none) ∧
    _get_bot_class_for_site (some " cbm") = (some BotClass.cbm, none) ∧
    _get_bot_class_for_site (some "earlybird") = (some BotClass.earlybird, none) ∧
    _get_bot_class_for_site (some "early-bird") = (some BotClass.earlybird, none) ∧
    _get_bot_class_for_site (some "early_bird") = (some BotClass.earlybird, none) ∧
    _get_bot_class_for_site (some "unknown-x") = (none, some "unsupported_site:unknown-x") ∧
    pyOrD none "cbm" = "cbm" ∧
    (_get_bot_class_for_site (some (pyOrD none "cbm"))).1 = some BotClass.cbm := by
  decide

/-- Claim C7, counterexample. The claim requires an orchestration result
with a success flag and error kind so that a successful run without a
voucher is distinguishable from a failed run. The runner returns a bare
optional string: a success dict without voucher_path and a failure dict
both produce exactly None, so the two runs are indistinguishable. -/
theorem C7_counterexample :
    (process_order_runner env0 successNoVoucherBots order0).result = Except.ok none ∧
    (process_order_runner env0 failDictBots order0).result = Except.ok none ∧
    (process_order_runner env0 successNoVoucherBots order0).result =
      (process_order_runner env0 failDictBots order0).result :=
  ⟨rfl, rfl, rfl⟩

/-- Claim C7, amended: the runner's result is only an optional voucher
path computed by interpResult from the process_order value; it carries no
success flag, no error kind and no attempt count, and both a success dict
without voucher and every failure dict map to None. -/
theorem C7_result_shape (env : MailEnv) (bots : BotClass → BotBehavior)
    (order : OrderData) (c : BotClass) (r : PyResult)
    (hres : (_get_bot_class_for_site (some (pyOrD order.site "cbm"))).1 = some c)
    (hctor : (bots c).ctorRaises = false)
    (hinit : (bots c).init = Except.ok true)
    (hlogin : (bots c).login = Except.ok true)
    (hexec : (bots c).exec = Except.ok r) :
    (process_order_runner env bots order).result = Except.ok (interpResult r) ∧
    interpResult (PyResult.pdict true none none) = none ∧
    (∀ v e, interpResult (PyResult.pdict false v e) = none) := by
  refine ⟨?_, rfl, fun v e => rfl⟩
  rw [runner_resolved env bots order c hres]
  unfold runBot
  rw [hctor, hinit, hlogin, hexec]

/-- Witness for C7_result_shape at a bot returning a success dict with a
voucher path. -/
theorem C7_result_shape_witness :
    (process_order_runner env0 voucherBots order0).result =
      Except.ok (interpResult (PyResult.pdict true (some "/vouchers/order_o1.pdf") none)) ∧
    interpResult (PyResult.pdict true none none) = none ∧
    (∀ v e, interpResult (PyResult.pdict false v e) = none) :=
  C7_result_shape env0 voucherBots order0 BotClass.cbm
    (PyResult.pdict true (some "/vouchers/order_o1.pdf") none) (by decide) rfl rfl rfl rfl

/-- Claim C8, counterexample. The claim requires every failing attempt to
trigger a notification naming the order id and the failure reason before
any retry decision. On a driver-initialization failure the runner sends
no notification at all (no error email), and the background worker's only
notification is the generic critical-error alert, which carries the order
id but no failure reason; the per-reason alert is never sent. -/
theorem C8_counterexample :
    (process_order_runner env0 failInitBots order0).emailCalls = 0 ∧
    (_process_order_background env0 failInitBots order0).perReasonAlert = none ∧
    (_process_order_background env0 failInitBots order0).criticalAlert =
      some (SlackMsg.criticalError (some "o1")) :=
  ⟨rfl, rfl, rfl⟩

/-- Claim C8, amended: a failing attempt that does not raise (here:
initialize_driver returns False) triggers no notification from the
runner; the background worker then crashes on result.get and sends only
the generic critical-error alert naming the order id without any failure
reason, and there is no retry decision. -/
theorem C8_failure_notifications (env : MailEnv) (bots : BotClass → BotBehavior)
    (order : OrderData) (c : BotClass)
    (hres : (_get_bot_class_for_site (some (pyOrD order.site "cbm"))).1 = some c)
    (hctor : (bots c).ctorRaises = false)
    (hinit : (bots c).init = Except.ok false) :
    (process_order_runner env bots order).emailCalls = 0 ∧
    (_process_order_background env bots order).perReasonAlert = none ∧
    (_process_order_background env bots order).criticalAlert =
      some (SlackMsg.criticalError order.order_id) := by
  have hr : process_order_runner env bots order =
      RunnerTrace.mk (Except.ok none) 1 1 0 := by
    rw [runner_resolved env bots order c hres]
    unfold runBot
    rw [hctor, hinit]
  refine ⟨by rw [hr], ?_, ?_⟩ <;>
    simp [_process_order_background, run_automation, hr]

/-- Witness for C8_failure_notifications at the always-failing bot. -/
theorem C8_failure_notifications_witness :
    (process_order_runner env0 failInitBots order0).emailCalls = 0 ∧
    (_process_order_background env0 failInitBots order0).perReasonAlert = none ∧
    (_process_order_background env0 failInitBots order0).criticalAlert =
      some (SlackMsg.criticalError order0.order_id) :=
  C8_failure_notifications env0 failInitBots order0 BotClass.cbm (by decide) rfl rfl

/-- Claim C9, counterexample. The claim asserts both notify operations
never raise under any environment. mail_sender.send_error_email converts
SMTP_PORT with int() before entering its try block, so with SMTP_PORT
unset the call raises to its caller. -/
theorem C9_counterexample :
    (send_error_email (MailEnv.mk none false) "m" "t").isOk = false :=
  rfl

/-- Claim C9, amended: send_slack_alert never raises to its caller under
any environment (its whole body is wrapped in except Exception), and
send_error_email never raises provided SMTP_PORT is set to an integer
string; delivery failures themselves are swallowed in both. -/
theorem C9_sink_no_raise (senv : SlackEnv) (msg : String) (menv : MailEnv)
    (m t : String) (hport : (pyInt? menv.smtpPort).isSome = true) :
    (send_slack_alert senv msg).isOk = true ∧
    (send_error_email menv m t).isOk = true := by
  constructor
  · unfold send_slack_alert
    cases slackBody senv <;> rfl
  · unfold send_error_email
    obtain ⟨v, hv⟩ := Option.isSome_iff_exists.mp hport
    rw [hv]
    cases smtpSend menv <;> rfl

/-- Witness for C9_sink_no_raise: the Slack sender with a raising HTTP
post, and the email sender with a raising SMTP session but a configured
port. -/
theorem C9_sink_no_raise_witness :
    (pyInt? (MailEnv.mk (some "2525") true).smtpPort).isSome = true ∧
    ((send_slack_alert (SlackEnv.mk (some "hook-url") (Except.error "connection error"))
        "alert").isOk = true ∧
     (send_error_email (MailEnv.mk (some "2525") true) "m" "t").isOk = true) :=
  ⟨by decide,
   C9_sink_no_raise (SlackEnv.mk (some "hook-url") (Except.error "connection error"))
     "alert" (MailEnv.mk (some "2525") true) "m" "t" (by decide)⟩

/-- Claim C10: whenever process_order_runner returns normally, the value
run_automation hands to the background worker is a string or None, never
a dict; the worker's result.get then raises AttributeError, its outer
handler sends the generic critical-error Slack alert, and the per-reason
alert is never sent. -/
theorem C10_background_attr_error (env : MailEnv) (bots : BotClass → BotBehavior)
    (order : OrderData)
    (h : resultOk (process_order_runner env bots order).result = true) :
    isDictVal (run_automation env bots order).1 = false ∧
    (_process_order_background env bots order).attrErrorRaised = true ∧
    (_process_order_background env bots order).criticalAlert =
      some (SlackMsg.criticalError order.order_id) ∧
    (_process_order_background env bots order).perReasonAlert = none := by
  cases hr : (process_order_runner env bots order).result with
  | error e =>
    rw [hr] at h
    simp [resultOk] at h
  | ok o =>
    cases o with
    | none => simp [run_automation, _process_order_background, isDictVal, hr]
    | some s => simp [run_automation, _process_order_background, isDictVal, hr]

/-- Witness for C10_background_attr_error at a bot that succeeds with a
plain string voucher path. -/
theorem C10_background_attr_error_witness :
    resultOk (process_order_runner env0 voucherStrBots order0).result = true ∧
    (isDictVal (run_automation env0 voucherStrBots order0).1 = false ∧
     (_process_order_background env0 voucherStrBots order0).attrErrorRaised = true ∧
     (_process_order_background env0 voucherStrBots order0).criticalAlert =
       some (SlackMsg.criticalError order0.order_id) ∧
     (_process_order_background env0 voucherStrBots order0).perReasonAlert = none) :=
  ⟨rfl, C10_background_attr_error env0 voucherStrBots order0 rfl⟩
